import Mathlib

/-!
Verification of the duplicate-aware counting and presence-overlap logic of
the device-scope dashboard (`streamlit_app.py`).

The Python code operates on pandas objects.  We embed it shallowly:

* a scalar cell value is a `PyVal` (string, int, float-as-rational, bool,
  `None`, or float NaN);
* a pandas `Series`/column is a `Col` (carrying its dtype: `bools` for a
  bool-dtype column, `nums` for a numeric column, `raw` for object dtype);
* a `DataFrame` is a `DF`: a row count plus named columns;
* for the row-aligned aggregations (overlap matrix, cardinality buckets,
  all-five-contexts count) we also use a row-wise view `Row`, since all the
  column operations involved are elementwise and the masks are row-aligned;
* Python floats are modelled as rationals `ℚ`; Python's `int(...)`
  truncation toward zero is `pytrunc`.

String-processing helpers (`strip`, lowercasing, numeric parsing) are
written over `List Char` so that they evaluate by `decide`.
-/

namespace DeviceScope

/-- Model of a Python/pandas scalar cell value. -/
inductive PyVal where
  | vStr (s : String)
  | vInt (n : ℤ)
  | vFloat (q : ℚ)
  | vBool (b : Bool)
  | vNone
  | vNaN
  deriving DecidableEq

/-- Python `str.strip()` on the character list of a string: drop leading and
trailing whitespace. -/
def strip (cs : List Char) : List Char :=
  ((cs.dropWhile Char.isWhitespace).reverse.dropWhile Char.isWhitespace).reverse

/-- Python `str.lower()` (ASCII case folding, which is all the dashboard's
flag literals use). -/
def lowerChars (cs : List Char) : List Char :=
  cs.map Char.toLower

/-- `pandas.Series.astype(str)` applied to one cell: the Python string form
of the value.  `None` stringifies to `"None"` and float NaN to `"nan"`,
exactly as in pandas object columns.  For non-integral floats the textual
form is approximated (`num/den` instead of decimal notation); it agrees
with Python on every property the code inspects: it is never empty and
never equal to `"true"`, `"false"`, `"1"` or `"0"`. -/
def pyStr : PyVal → String
  | .vStr s => s
  | .vInt n => toString n
  | .vFloat q => if q.den = 1 then toString q.num ++ ".0"
      else toString q.num ++ "/" ++ toString q.den
  | .vBool true => "True"
  | .vBool false => "False"
  | .vNone => "None"
  | .vNaN => "nan"

/-- The `.astype(str).str.strip().str.lower()` pipeline of
`normalize_bool_column`, for one cell. -/
def pyKey (v : PyVal) : List Char :=
  lowerChars (strip (pyStr v).data)

/-- The `.replace({"true": True, "false": False, "1": True, "0": False})`
step of `normalize_bool_column`: a matched string becomes a bool, anything
else is left as the string. -/
def replaceBoolLiterals (s : List Char) : Sum Bool (List Char) :=
  if s = "true".data then .inl true
  else if s = "false".data then .inl false
  else if s = "1".data then .inl true
  else if s = "0".data then .inl false
  else .inr s

/-- The final `.astype(bool)` step: a bool stays itself, a string is truthy
iff it is non-empty. -/
def astype_bool : Sum Bool (List Char) → Bool
  | .inl b => b
  | .inr s => !s.isEmpty

/-- `normalize_bool_column` (src/streamlit_app.py lines 136-143) applied to
one cell: stringify, strip, lowercase, replace the four literals, cast to
bool. -/
def normalize_bool_val (v : PyVal) : Bool :=
  astype_bool (replaceBoolLiterals (pyKey v))

/-- Digit-string value: `some` of the decimal value when every character is
a digit (the empty list giving 0), otherwise `none`. -/
def parseDigits (cs : List Char) : Option ℕ :=
  if cs.all Char.isDigit then
    some (cs.foldl (fun n c => 10 * n + (c.toNat - 48)) 0)
  else none

/-- Split a character list at a single decimal point: no dot gives
`(cs, [])`, one dot splits, two or more dots fail. -/
def splitDot : List Char → Option (List Char × List Char)
  | [] => some ([], [])
  | '.' :: t => if t.contains '.' then none else some ([], t)
  | c :: t => (splitDot t).map (fun p => (c :: p.1, p.2))

/-- Decidable core of the numeric-string reader behind
`pd.to_numeric(..., errors="coerce")`: strip whitespace, read an optional
sign, an integer part and an optional fractional part.  Returns
`(negative, integer part, fractional digits value, number of fractional
digits)`.  (Exponent notation is not modelled; the exports contain plain
decimal counts.) -/
def parseParts (s : String) : Option (Bool × ℕ × ℕ × ℕ) :=
  let t := strip s.data
  let (neg, cs) :=
    match t with
    | '-' :: r => (true, r)
    | '+' :: r => (false, r)
    | r => (false, r)
  match splitDot cs with
  | none => none
  | some (ip, fp) =>
    if ip.length + fp.length = 0 then none
    else
      match parseDigits ip, parseDigits fp with
      | some a, some b => some (neg, a, b, fp.length)
      | _, _ => none

/-- Numeric value of a string under `pd.to_numeric(..., errors="coerce")`:
`none` models NaN (an unparsable string). -/
def parseRat (s : String) : Option ℚ :=
  (parseParts s).map (fun p =>
    let v : ℚ := (p.2.1 : ℚ) + (p.2.2.1 : ℚ) / ((10 : ℚ) ^ p.2.2.2)
    if p.1 then -v else v)

/-- One cell under `pd.to_numeric(col, errors="coerce").fillna(0)`:
numbers pass through, booleans become 0/1, anything unparsable (including
`None`/NaN) is coerced to 0 by the `fillna(0)`. -/
def to_numeric_coerce (v : PyVal) : ℚ :=
  match v with
  | .vStr s => (parseRat s).getD 0
  | .vInt n => (n : ℚ)
  | .vFloat q => q
  | .vBool b => if b then 1 else 0
  | .vNone => 0
  | .vNaN => 0

/-- Python `int(x)` on a float: truncation toward zero. -/
def pytrunc (q : ℚ) : ℤ :=
  if 0 ≤ q then ⌊q⌋ else -⌊-q⌋

theorem pytrunc_intCast (n : ℤ) : pytrunc (n : ℚ) = n := by
  unfold pytrunc
  split
  · exact Int.floor_intCast n
  · rw [← Int.cast_neg, Int.floor_intCast, neg_neg]

theorem pytrunc_mono {q r : ℚ} (h : q ≤ r) : pytrunc q ≤ pytrunc r := by
  unfold pytrunc
  split <;> split
  · exact Int.floor_mono h
  · linarith
  · have h1 : (0 : ℤ) ≤ ⌊r⌋ := Int.floor_nonneg.mpr (by assumption)
    have h2 : (0 : ℤ) ≤ ⌊-q⌋ := Int.floor_nonneg.mpr (by linarith)
    omega
  · have := Int.floor_mono (neg_le_neg h)
    omega

/-- `adjust_count_for_duplicates` (src/streamlit_app.py lines 160-174):
`extra = (series - 1).clip(lower=0).sum()` for each source, then
`int(base_count + extra_entra + extra_sophos)`. -/
def adjust_count_for_duplicates (base_count : ℚ)
    (series_entra series_sophos : List ℚ) : ℤ :=
  let extra_entra := (series_entra.map (fun c => max (c - 1) 0)).sum
  let extra_sophos := (series_sophos.map (fun c => max (c - 1) 0)).sum
  pytrunc (base_count + extra_entra + extra_sophos)

theorem clip_sum_nonneg (l : List ℚ) :
    0 ≤ (l.map (fun c => max (c - 1) 0)).sum := by
  refine List.sum_nonneg ?_
  intro x hx
  obtain ⟨c, -, rfl⟩ := List.mem_map.mp hx
  exact le_max_right _ _

theorem clip_sum_eq_zero {l : List ℚ} (h : ∀ x ∈ l, x ≤ 1) :
    (l.map (fun c => max (c - 1) 0)).sum = 0 := by
  refine List.sum_eq_zero ?_
  intro x hx
  obtain ⟨c, hc, rfl⟩ := List.mem_map.mp hx
  have := h c hc
  simp only [max_eq_right_iff]
  linarith

/-- A pandas column together with its dtype: `bools` is a bool-dtype
column, `nums` a numeric (float) column, `raw` an object column of mixed
values. -/
inductive Col where
  | raw (vs : List PyVal)
  | bools (bs : List Bool)
  | nums (qs : List ℚ)
  deriving DecidableEq

/-- The cell values of a column, as Python scalars. -/
def Col.toPyList : Col → List PyVal
  | .raw vs => vs
  | .bools bs => bs.map PyVal.vBool
  | .nums qs => qs.map PyVal.vFloat

/-- `normalize_bool_column` (src/streamlit_app.py lines 136-143) at the
series level: the elementwise pipeline, producing a bool-dtype column. -/
def normalize_bool_column (series : Col) : Col :=
  .bools (series.toPyList.map normalize_bool_val)

/-- `pd.to_numeric(col, errors="coerce").fillna(0)` at the series level:
the elementwise coercion, producing a numeric column. -/
def to_numeric_fillna0 (series : Col) : Col :=
  .nums (series.toPyList.map to_numeric_coerce)

/-- Python truthiness of a cell, used by pandas `.all`/`.astype(bool)` on
object columns (NaN is truthy in Python). -/
def pyTruthy : PyVal → Bool
  | .vStr s => !s.isEmpty
  | .vInt n => n != 0
  | .vFloat q => q != 0
  | .vBool b => b
  | .vNone => false
  | .vNaN => true

/-- The bool values of a column (a bool-dtype column gives its bools;
other dtypes fall back to Python truthiness). -/
def Col.toBools : Col → List Bool
  | .bools bs => bs
  | c => c.toPyList.map pyTruthy

/-- The numeric values of a numeric column.  Every read in the embedded
code happens after a `to_numeric_fillna0` write, so the fallback branch
coerces just as pandas arithmetic would. -/
def Col.toNums : Col → List ℚ
  | .nums qs => qs
  | c => c.toPyList.map to_numeric_coerce

/-- Row-wise view of the device table: the five raw presence flags and the
two raw instance-count cells of one CSV row. -/
structure Row where
  inEntra : PyVal
  inIntune : PyVal
  inAD : PyVal
  inSophos : PyVal
  inKACE : PyVal
  entraIC : PyVal
  sophosIC : PyVal
  deriving DecidableEq

/-- The five presence contexts, in the column order
`InEntra, InIntune, InAD, InSophos, InKACE` of `PRESENCE_BOOL_COLS`. -/
inductive Ctx where
  | entra
  | intune
  | ad
  | sophos
  | kace
  deriving DecidableEq

/-- The raw presence-flag cell of a row for a context. -/
def Row.flag (r : Row) : Ctx → PyVal
  | .entra => r.inEntra
  | .intune => r.inIntune
  | .ad => r.inAD
  | .sophos => r.inSophos
  | .kace => r.inKACE

/-- The normalized presence flag of a row, i.e. the cell of the column
after `normalize_bool_column`. -/
def nflag (r : Row) (c : Ctx) : Bool :=
  normalize_bool_val (r.flag c)

/-- The coerced `Entra_InstanceCount` cell of a row, i.e. the cell after
`pd.to_numeric(..., errors="coerce").fillna(0)`. -/
def entraN (r : Row) : ℚ :=
  to_numeric_coerce r.entraIC

/-- The coerced `Sophos_InstanceCount` cell of a row. -/
def sophosN (r : Row) : ℚ :=
  to_numeric_coerce r.sophosIC

/-- `count_all_5_contexts` (src/streamlit_app.py lines 205-222), row-wise:
normalize the five presence columns, coerce the two instance-count
columns, mask the rows where all five flags hold, and pass the masked
subset through `adjust_count_for_duplicates`. -/
def count_all_5_contexts (df : List Row) : ℤ :=
  let all_five_mask := fun r =>
    nflag r .entra && nflag r .intune && nflag r .ad &&
      nflag r .sophos && nflag r .kace
  let all_five_devices := df.filter all_five_mask
  let base_count := all_five_devices.length
  adjust_count_for_duplicates (base_count : ℚ)
    (all_five_devices.map entraN) (all_five_devices.map sophosN)

/-- One cell of the adjusted overlap heatmap
(src/streamlit_app.py lines 447-459): the mask is
`df_view[i] & df_view[j]` over the normalized presence columns,
`base_count = overlap_mask.sum()`, and each source's duplicate extras are
added only when `i` or `j` is that source's column. -/
def heatmap_matrix (df : List Row) (i j : Ctx) : ℤ :=
  let overlap_mask := fun r => nflag r i && nflag r j
  let base_count := df.countP overlap_mask
  let extra_entra : ℚ :=
    if i = Ctx.entra ∨ j = Ctx.entra then
      ((df.filter overlap_mask).map (fun r => max (entraN r - 1) 0)).sum
    else 0
  let extra_sophos : ℚ :=
    if i = Ctx.sophos ∨ j = Ctx.sophos then
      ((df.filter overlap_mask).map (fun r => max (sophosN r - 1) 0)).sum
    else 0
  pytrunc ((base_count : ℚ) + extra_entra + extra_sophos)

/-- `df["ContextsPresent"]` (src/streamlit_app.py line 486): the number of
the five normalized presence flags that are true in a row. -/
def contextsPresent (r : Row) : ℕ :=
  (nflag r .entra).toNat + (nflag r .intune).toNat + (nflag r .ad).toNat +
    (nflag r .sophos).toNat + (nflag r .kace).toNat

/-- The bucket of rows with a given context cardinality. -/
def cardBucket (df : List Row) (n : ℕ) : List Row :=
  df.filter (fun r => contextsPresent r == n)

/-- `adjusted_counts` (src/streamlit_app.py lines 489-497): for each
cardinality value occurring in `df["ContextsPresent"]`, in ascending order
(`sorted(... .unique())`, which for these 0-5 valued counts is the
occurring members of `range 6`), the bucket's
`adjust_count_for_duplicates` result. -/
def adjusted_counts (df : List Row) : List (ℕ × ℤ) :=
  ((List.range 6).filter
      (fun n => df.any (fun r => contextsPresent r == n))).map
    (fun n =>
      (n, adjust_count_for_duplicates ((cardBucket df n).length : ℚ)
        ((cardBucket df n).map entraN) ((cardBucket df n).map sophosN)))

/-- A pandas `DataFrame`: a fixed row count (the index length) and the
named columns.  Column assignment `df[name] = series` replaces an
existing column or appends a new one. -/
structure DF where
  nrows : ℕ
  cols : List (String × Col)
  deriving DecidableEq

/-- `MULTI_INSTANCE_COL` (src/streamlit_app.py line 32). -/
def MULTI_INSTANCE_COL : String := "MultiInstanceFlag"

/-- `PRESENCE_BOOL_COLS` (src/streamlit_app.py lines 26-28). -/
def PRESENCE_BOOL_COLS : List String :=
  ["InEntra", "InIntune", "InAD", "InSophos", "InKACE"]

/-- Column read `df[k]`, as an option. -/
def dfGet (df : DF) (k : String) : Option Col :=
  df.cols.lookup k

/-- Column read with the empty-object-column default (the embeddedConfig
functions only read columns they are handed or have just written). -/
def dfGetD (df : DF) (k : String) : Col :=
  (dfGet df k).getD (.raw [])

/-- Replace the first binding of a key, or append the binding. -/
def setPairs : List (String × Col) → String → Col → List (String × Col)
  | [], k, c => [(k, c)]
  | (k', c') :: t, k, c =>
    if k' = k then (k, c) :: t else (k', c') :: setPairs t k c

/-- Column assignment `df[k] = c`. -/
def dfSet (df : DF) (k : String) (c : Col) : DF :=
  ⟨df.nrows, setPairs df.cols k c⟩

theorem lookup_setPairs_same (l : List (String × Col)) (k : String) (c : Col) :
    (setPairs l k c).lookup k = some c := by
  induction l with
  | nil => simp [setPairs, List.lookup]
  | cons p t ih =>
    obtain ⟨k', c'⟩ := p
    by_cases h : k' = k
    · subst h
      simp [setPairs, List.lookup]
    · have hb : (k == k') = false := beq_eq_false_iff_ne.mpr (Ne.symm h)
      simp [setPairs, h, List.lookup, hb, ih]

theorem lookup_setPairs_other (l : List (String × Col)) {k k' : String}
    (c : Col) (h : k' ≠ k) :
    (setPairs l k c).lookup k' = l.lookup k' := by
  have hb : (k' == k) = false := beq_eq_false_iff_ne.mpr h
  induction l with
  | nil => simp [setPairs, List.lookup, hb]
  | cons p t ih =>
    obtain ⟨k'', c''⟩ := p
    by_cases h2 : k'' = k
    · subst h2
      simp [setPairs, List.lookup, hb]
    · simp [setPairs, h2, List.lookup, ih]

theorem dfGet_dfSet_same (df : DF) (k : String) (c : Col) :
    dfGet (dfSet df k c) k = some c :=
  lookup_setPairs_same df.cols k c

theorem dfGet_dfSet_other (df : DF) {k k' : String} (c : Col) (h : k' ≠ k) :
    dfGet (dfSet df k c) k' = dfGet df k' :=
  lookup_setPairs_other df.cols c h

theorem dfGetD_dfSet_same (df : DF) (k : String) (c : Col) :
    dfGetD (dfSet df k c) k = c := by
  simp [dfGetD, dfGet_dfSet_same]

theorem dfGetD_dfSet_other (df : DF) {k k' : String} (c : Col) (h : k' ≠ k) :
    dfGetD (dfSet df k c) k' = dfGetD df k' := by
  simp [dfGetD, dfGet_dfSet_other df c h]

/-- Row-wise conjunction of bool columns, `df[cols].all(axis=1)` (always
applied to the five presence columns, so the empty case is unused). -/
def allMask : List (List Bool) → List Bool
  | [] => []
  | c :: rest => rest.foldl (fun acc col => acc.zipWith (· && ·) col) c

/-- Boolean-mask subsetting `series[mask]` of a row-aligned series. -/
def maskFilter (mask : List Bool) (xs : List α) : List α :=
  (mask.zip xs).filterMap (fun p => if p.1 then some p.2 else none)

/-- `count_total_devices` (src/streamlit_app.py lines 198-203): coerce the
two instance-count columns in place, then adjust `len(df)` by the
duplicate extras.  The second component is the mutated frame. -/
def count_total_devices (df : DF) : ℤ × DF :=
  let df1 := dfSet df "Entra_InstanceCount"
    (to_numeric_fillna0 (dfGetD df "Entra_InstanceCount"))
  let df2 := dfSet df1 "Sophos_InstanceCount"
    (to_numeric_fillna0 (dfGetD df1 "Sophos_InstanceCount"))
  let base_count := df2.nrows
  (adjust_count_for_duplicates (base_count : ℚ)
      (dfGetD df2 "Entra_InstanceCount").toNums
      (dfGetD df2 "Sophos_InstanceCount").toNums,
    df2)

/-- `count_all_5_contexts` (src/streamlit_app.py lines 205-222) in its
stateful, column-level form: normalize the five presence columns in
place, coerce the two instance-count columns in place, then adjust the
all-five-flags row subset.  The second component is the mutated frame. -/
def count_all_5_contexts_df (df : DF) : ℤ × DF :=
  let df1 := PRESENCE_BOOL_COLS.foldl
    (fun d c => dfSet d c (normalize_bool_column (dfGetD d c))) df
  let df2 := dfSet df1 "Entra_InstanceCount"
    (to_numeric_fillna0 (dfGetD df1 "Entra_InstanceCount"))
  let df3 := dfSet df2 "Sophos_InstanceCount"
    (to_numeric_fillna0 (dfGetD df2 "Sophos_InstanceCount"))
  let all_five_mask :=
    allMask (PRESENCE_BOOL_COLS.map (fun c => (dfGetD df3 c).toBools))
  let base_count := all_five_mask.countP id
  (adjust_count_for_duplicates (base_count : ℚ)
      (maskFilter all_five_mask (dfGetD df3 "Entra_InstanceCount").toNums)
      (maskFilter all_five_mask (dfGetD df3 "Sophos_InstanceCount").toNums),
    df3)

/-- `count_multi_instance_devices` (src/streamlit_app.py lines 224-232):
a missing column yields 0; a bool-dtype column is summed; anything else is
numerically coerced and the strictly positive entries counted.  No column
is written, so the frame is returned unchanged. -/
def count_multi_instance_devices (df : DF) : ℤ × DF :=
  match dfGet df MULTI_INSTANCE_COL with
  | none => (0, df)
  | some (.bools bs) => ((bs.countP id : ℕ), df)
  | some c =>
    (((c.toPyList.map to_numeric_coerce).countP
        (fun q => decide (0 < q)) : ℕ), df)

theorem clip_sum_intCast (l : List ℕ) :
    ((l.map (fun n : ℕ => (n : ℚ))).map (fun c => max (c - 1) 0)).sum =
      (((l.map (fun x : ℕ => max ((x : ℤ) - 1) 0)).sum : ℤ) : ℚ) := by
  induction l with
  | nil => simp
  | cons a t ih =>
    simp only [List.map_cons, List.sum_cons, ih]
    push_cast
    ring

theorem adjust_count_eq (b : ℚ) (e s : List ℚ) :
    adjust_count_for_duplicates b e s =
      pytrunc (b + (e.map (fun c => max (c - 1) 0)).sum +
        (s.map (fun c => max (c - 1) 0)).sum) :=
  rfl

/-- C1: for every non-negative integer base count `b` and non-negative
integer sequences `e`, `s`, `adjust_count_for_duplicates b e s` is exactly
`b + Σ max(x-1,0) over e + Σ max(x-1,0) over s` (the `int(...)` truncation
being the identity on this integer); in particular
`adjust_count_for_duplicates 0 [] [] = 0`. -/
theorem adjust_count_for_duplicates_nat_spec (b : ℕ) (e s : List ℕ) :
    adjust_count_for_duplicates (b : ℚ)
        (e.map (fun n : ℕ => (n : ℚ))) (s.map (fun n : ℕ => (n : ℚ))) =
      (b : ℤ) + (e.map (fun x : ℕ => max ((x : ℤ) - 1) 0)).sum +
        (s.map (fun x : ℕ => max ((x : ℤ) - 1) 0)).sum ∧
      adjust_count_for_duplicates 0 [] [] = 0 := by
  constructor
  · rw [adjust_count_eq, clip_sum_intCast e, clip_sum_intCast s]
    have hcast : (b : ℚ) + (((e.map (fun x : ℕ => max ((x : ℤ) - 1) 0)).sum : ℤ) : ℚ) +
        (((s.map (fun x : ℕ => max ((x : ℤ) - 1) 0)).sum : ℤ) : ℚ) =
        (((b : ℤ) + (e.map (fun x : ℕ => max ((x : ℤ) - 1) 0)).sum +
          (s.map (fun x : ℕ => max ((x : ℤ) - 1) 0)).sum : ℤ) : ℚ) := by
      push_cast
      ring
    rw [hcast, pytrunc_intCast]
  · norm_num [adjust_count_for_duplicates, pytrunc]

/-- C2 counterexample: the empty string is NOT normalized to `True`.  Its
stringified, stripped, lowercased form is the empty string, which misses
the replacement map, and `bool("")` is `False`. -/
theorem normalize_bool_column_empty_cex :
    normalize_bool_column (Col.raw [PyVal.vStr ""]) = Col.bools [false] ∧
      Col.bools [false] ≠ Col.bools [true] := by
  constructor
  · decide
  · decide

/-- C2 (amended): presence normalization stringifies, strips whitespace,
lowercases, maps exactly `"true"/"1" ↦ True` and `"false"/"0" ↦ False`,
and maps every other literal — including null/missing values, which
stringify to `"None"`/`"nan"` — to `True`, except values whose stringified
and stripped form is empty (the empty string and whitespace-only
strings), which map to `False`. -/
theorem normalize_bool_column_literal_spec (vs : List PyVal) :
    normalize_bool_column (Col.raw vs) =
      Col.bools (vs.map (fun v =>
        match [("true".data, true), ("false".data, false),
            ("1".data, true), ("0".data, false)].lookup (pyKey v) with
        | some b => b
        | none => !(pyKey v).isEmpty)) ∧
      normalize_bool_val PyVal.vNone = true ∧
      normalize_bool_val PyVal.vNaN = true ∧
      normalize_bool_val (PyVal.vStr "") = false := by
  refine ⟨?_, by decide, by decide, by decide⟩
  unfold normalize_bool_column Col.toPyList
  congr 1
  refine List.map_congr_left ?_
  intro v _
  by_cases h1 : pyKey v = "true".data
  · simp [normalize_bool_val, replaceBoolLiterals, astype_bool, List.lookup, h1]
  · by_cases h2 : pyKey v = "false".data
    · simp [normalize_bool_val, replaceBoolLiterals, astype_bool, List.lookup,
        h1, h2, beq_eq_false_iff_ne.mpr h1]
    · by_cases h3 : pyKey v = "1".data
      · simp [normalize_bool_val, replaceBoolLiterals, astype_bool, List.lookup,
          h1, h2, h3, beq_eq_false_iff_ne.mpr h1, beq_eq_false_iff_ne.mpr h2]
      · by_cases h4 : pyKey v = "0".data
        · simp [normalize_bool_val, replaceBoolLiterals, astype_bool,
            List.lookup, h1, h2, h3, h4, beq_eq_false_iff_ne.mpr h1,
            beq_eq_false_iff_ne.mpr h2, beq_eq_false_iff_ne.mpr h3]
        · simp [normalize_bool_val, replaceBoolLiterals, astype_bool,
            List.lookup, h1, h2, h3, h4, beq_eq_false_iff_ne.mpr h1,
            beq_eq_false_iff_ne.mpr h2, beq_eq_false_iff_ne.mpr h3,
            beq_eq_false_iff_ne.mpr h4]

/-- C8 counterexample: fractional instance counts above 1 are NOT clipped
to zero extra contribution: two entries of 1.5 contribute 0.5 each, so the
adjusted count is 11, not the truncated base count 10. -/
theorem adjust_count_fractional_cex :
    adjust_count_for_duplicates 10 [(3 : ℚ)/2, (3 : ℚ)/2] [] = 11 ∧
      (11 : ℤ) ≠ (10 : ℤ) := by
  constructor
  · norm_num [adjust_count_for_duplicates, pytrunc]
  · decide

/-- C8 (amended): `adjust_count_for_duplicates` is a pure deterministic
function; each instance count contributes `max(x-1, 0)` extra — never a
negative amount — so the result is never below the truncated base count,
and instance counts at most 1 (in particular every negative value and
every fractional value below 1) contribute zero extra. -/
theorem adjust_count_clip_spec (b : ℚ) (e s : List ℚ) :
    pytrunc b ≤ adjust_count_for_duplicates b e s ∧
      ((∀ x ∈ e, x ≤ 1) → (∀ x ∈ s, x ≤ 1) →
        adjust_count_for_duplicates b e s = pytrunc b) := by
  constructor
  · rw [adjust_count_eq]
    apply pytrunc_mono
    have he := clip_sum_nonneg e
    have hs := clip_sum_nonneg s
    linarith
  · intro he hs
    rw [adjust_count_eq, clip_sum_eq_zero he, clip_sum_eq_zero hs, add_zero,
      add_zero]

theorem adjust_count_clip_spec_wit :
    pytrunc 10 ≤ adjust_count_for_duplicates 10 [(1 : ℚ), 0] [] ∧
      adjust_count_for_duplicates 10 [(1 : ℚ), 0] [] = pytrunc 10 :=
  ⟨(adjust_count_clip_spec 10 [1, 0] []).1,
    (adjust_count_clip_spec 10 [1, 0] []).2
      (by intro x hx; simp at hx; rcases hx with rfl | rfl <;> norm_num)
      (by intro x hx; simp at hx)⟩

/-- C9: presence normalization is idempotent on an already-boolean column:
a bool-dtype column comes back unchanged (`True ↦ "True" ↦ "true" ↦ True`
and likewise for `False`). -/
theorem normalize_bool_column_idempotent (bs : List Bool) :
    normalize_bool_column (Col.bools bs) = Col.bools bs := by
  unfold normalize_bool_column Col.toPyList
  congr 1
  rw [List.map_map]
  have h : ∀ b : Bool, normalize_bool_val (PyVal.vBool b) = b := by decide
  simp [Function.comp_def, h]

/-- C3: every overlap-matrix cell is the count of rows where both flags
hold, plus the Entra duplicate extras over exactly those rows when (and
only when) `In Entra` participates in the pair, plus the Sophos extras
over those rows when `In Sophos` participates (the whole sum passing
through Python's `int(...)` truncation, the identity on integer data). -/
theorem heatmap_matrix_cell_spec (df : List Row) (i j : Ctx) :
    heatmap_matrix df i j =
      pytrunc
        (((df.filter (fun r => nflag r i && nflag r j)).length : ℚ) +
          (if i = Ctx.entra ∨ j = Ctx.entra then
            ((df.filter (fun r => nflag r i && nflag r j)).map
              (fun r => max (entraN r - 1) 0)).sum
          else 0) +
          (if i = Ctx.sophos ∨ j = Ctx.sophos then
            ((df.filter (fun r => nflag r i && nflag r j)).map
              (fun r => max (sophosN r - 1) 0)).sum
          else 0)) := by
  simp only [heatmap_matrix, List.countP_eq_length_filter]

/-- C4: the overlap matrix is symmetric in its two context arguments: the
row mask `df_view[i] & df_view[j]` and the participation tests
`i == c or j == c` are symmetric in `i` and `j`. -/
theorem heatmap_matrix_symm (df : List Row) (i j : Ctx) :
    heatmap_matrix df i j = heatmap_matrix df j i := by
  simp only [heatmap_matrix]
  have hc : df.countP (fun r => nflag r i && nflag r j) =
      df.countP (fun r => nflag r j && nflag r i) :=
    List.countP_congr (fun r _ => by rw [Bool.and_comm])
  have hf : df.filter (fun r => nflag r i && nflag r j) =
      df.filter (fun r => nflag r j && nflag r i) :=
    List.filter_congr (fun r _ => Bool.and_comm _ _)
  rw [hc, hf]
  rw [if_congr (or_comm (a := i = Ctx.entra)) rfl rfl,
    if_congr (or_comm (a := i = Ctx.sophos)) rfl rfl]

/-- C5: the all-five-contexts metric is `adjust_count_for_duplicates`
applied to the subset of rows whose five normalized presence flags all
hold, with the base count the size of that subset and both instance-count
sequences drawn from the same filtered subset; and a non-numeric
instance-count string is coerced to 0 rather than raising. -/
theorem count_all_5_contexts_filtered_spec (df : List Row) :
    count_all_5_contexts df =
      adjust_count_for_duplicates
        ((df.filter (fun r => nflag r .entra && nflag r .intune &&
            nflag r .ad && nflag r .sophos && nflag r .kace)).length : ℚ)
        ((df.filter (fun r => nflag r .entra && nflag r .intune &&
            nflag r .ad && nflag r .sophos && nflag r .kace)).map entraN)
        ((df.filter (fun r => nflag r .entra && nflag r .intune &&
            nflag r .ad && nflag r .sophos && nflag r .kace)).map sophosN) ∧
      ∀ s : String, parseParts s = none →
        to_numeric_coerce (PyVal.vStr s) = 0 := by
  constructor
  · rfl
  · intro s h
    simp [to_numeric_coerce, parseRat, h]

theorem count_all_5_contexts_filtered_spec_wit :
    count_all_5_contexts [] =
      adjust_count_for_duplicates ((0 : ℕ) : ℚ) [] [] ∧
      to_numeric_coerce (PyVal.vStr "N/A") = 0 :=
  ⟨(count_all_5_contexts_filtered_spec []).1,
    (count_all_5_contexts_filtered_spec []).2 "N/A" (by decide)⟩

theorem lookup_map_pair {α : Type} (f : ℕ → α) (l : List ℕ) (n : ℕ) :
    (l.map (fun m => (m, f m))).lookup n =
      if n ∈ l then some (f n) else none := by
  induction l with
  | nil => simp [List.lookup]
  | cons m t ih =>
    by_cases h : n = m
    · subst h
      simp [List.lookup]
    · have hb : (n == m) = false := beq_eq_false_iff_ne.mpr h
      simp [List.lookup, hb, ih, h]

/-- C6: every entry of the context-cardinality distribution is keyed by a
cardinality between 0 and 5, and its value is
`adjust_count_for_duplicates` applied to that cardinality's bucket: the
bucket's row count and the bucket's own slices of the two instance-count
columns. -/
theorem adjusted_counts_bucket_spec (df : List Row) (n : ℕ)
    (h : df.any (fun r => contextsPresent r == n)) :
    n ≤ 5 ∧
      (adjusted_counts df).lookup n =
        some (adjust_count_for_duplicates ((cardBucket df n).length : ℚ)
          ((cardBucket df n).map entraN) ((cardBucket df n).map sophosN)) := by
  have hcard : ∀ r : Row, contextsPresent r ≤ 5 := by
    intro r
    have hb : ∀ b : Bool, b.toNat ≤ 1 := by decide
    have h1 := hb (nflag r .entra)
    have h2 := hb (nflag r .intune)
    have h3 := hb (nflag r .ad)
    have h4 := hb (nflag r .sophos)
    have h5 := hb (nflag r .kace)
    unfold contextsPresent
    omega
  have hle : n ≤ 5 := by
    obtain ⟨r, -, he⟩ := List.any_eq_true.mp h
    have hrn : contextsPresent r = n := by simpa using he
    have := hcard r
    omega
  refine ⟨hle, ?_⟩
  unfold adjusted_counts
  rw [lookup_map_pair (fun n =>
    adjust_count_for_duplicates ((cardBucket df n).length : ℚ)
      ((cardBucket df n).map entraN) ((cardBucket df n).map sophosN))]
  rw [if_pos]
  exact List.mem_filter.mpr ⟨List.mem_range.mpr (by omega), h⟩

/-- The one-row table used to instantiate the cardinality-bucket theorem:
a device present in all five systems. -/
def rowAllFive : Row :=
  ⟨.vBool true, .vBool true, .vBool true, .vBool true, .vBool true,
    .vInt 2, .vInt 1⟩

theorem adjusted_counts_bucket_spec_wit :
    5 ≤ 5 ∧
      (adjusted_counts [rowAllFive]).lookup 5 =
        some (adjust_count_for_duplicates
          ((cardBucket [rowAllFive] 5).length : ℚ)
          ((cardBucket [rowAllFive] 5).map entraN)
          ((cardBucket [rowAllFive] 5).map sophosN)) :=
  adjusted_counts_bucket_spec [rowAllFive] 5 (by decide)

/-- C7: the multi-instance metric counts the `True` rows of a bool-dtype
indicator column, counts the strictly positive rows after numeric coercion
for any other dtype (object or numeric), and returns 0 — raising no
error — when the `MultiInstanceFlag` column is absent. -/
theorem count_multi_instance_devices_spec (df : DF) :
    (dfGet df MULTI_INSTANCE_COL = none →
      (count_multi_instance_devices df).1 = 0) ∧
    (∀ bs, dfGet df MULTI_INSTANCE_COL = some (Col.bools bs) →
      (count_multi_instance_devices df).1 = ((bs.countP id : ℕ) : ℤ)) ∧
    (∀ vs, dfGet df MULTI_INSTANCE_COL = some (Col.raw vs) →
      (count_multi_instance_devices df).1 =
        (((vs.map to_numeric_coerce).countP
          (fun q => decide (0 < q)) : ℕ) : ℤ)) ∧
    (∀ qs, dfGet df MULTI_INSTANCE_COL = some (Col.nums qs) →
      (count_multi_instance_devices df).1 =
        ((qs.countP (fun q => decide (0 < q)) : ℕ) : ℤ)) := by
  refine ⟨fun h => ?_, fun bs h => ?_, fun vs h => ?_, fun qs h => ?_⟩
  · simp [count_multi_instance_devices, h]
  · simp [count_multi_instance_devices, h]
  · simp [count_multi_instance_devices, h, Col.toPyList]
  · simp only [count_multi_instance_devices, h, Col.toPyList, List.map_map]
    have hcomp : to_numeric_coerce ∘ PyVal.vFloat = id := by
      funext q
      rfl
    rw [hcomp, List.map_id]

theorem count_multi_instance_devices_spec_wit :
    (count_multi_instance_devices ⟨0, []⟩).1 = 0 :=
  (count_multi_instance_devices_spec ⟨0, []⟩).1 rfl

/-- C10: `count_total_devices` overwrites the two instance-count columns
with their coerced, zero-filled versions and touches nothing else;
`count_all_5_contexts` additionally overwrites the five presence columns
with their normalized boolean versions and touches nothing else;
`count_multi_instance_devices` leaves the frame entirely unchanged.  (The
in-place pandas mutation is modelled by returning the mutated frame.) -/
theorem aggregator_frame_effects (df : DF) :
    (dfGet (count_total_devices df).2 "Entra_InstanceCount" =
        some (to_numeric_fillna0 (dfGetD df "Entra_InstanceCount")) ∧
      dfGet (count_total_devices df).2 "Sophos_InstanceCount" =
        some (to_numeric_fillna0 (dfGetD df "Sophos_InstanceCount")) ∧
      (∀ k, k ≠ "Entra_InstanceCount" → k ≠ "Sophos_InstanceCount" →
        dfGet (count_total_devices df).2 k = dfGet df k) ∧
      (count_total_devices df).2.nrows = df.nrows) ∧
    ((∀ c ∈ PRESENCE_BOOL_COLS,
        dfGet (count_all_5_contexts_df df).2 c =
          some (normalize_bool_column (dfGetD df c))) ∧
      dfGet (count_all_5_contexts_df df).2 "Entra_InstanceCount" =
        some (to_numeric_fillna0 (dfGetD df "Entra_InstanceCount")) ∧
      dfGet (count_all_5_contexts_df df).2 "Sophos_InstanceCount" =
        some (to_numeric_fillna0 (dfGetD df "Sophos_InstanceCount")) ∧
      (∀ k, k ∉ PRESENCE_BOOL_COLS → k ≠ "Entra_InstanceCount" →
        k ≠ "Sophos_InstanceCount" →
        dfGet (count_all_5_contexts_df df).2 k = dfGet df k) ∧
      (count_all_5_contexts_df df).2.nrows = df.nrows) ∧
    (count_multi_instance_devices df).2 = df := by
  refine ⟨⟨?_, ?_, fun k h1 h2 => ?_, ?_⟩,
    ⟨fun c hc => ?_, ?_, ?_, fun k hk h1 h2 => ?_, ?_⟩, ?_⟩
  · simp [count_total_devices, dfGet_dfSet_same, dfGet_dfSet_other]
  · simp [count_total_devices, dfGet_dfSet_same, dfGetD_dfSet_other]
  · simp [count_total_devices, dfGet_dfSet_other _ _ h1,
      dfGet_dfSet_other _ _ h2]
  · simp [count_total_devices, dfSet]
  · fin_cases hc <;>
      simp [count_all_5_contexts_df, PRESENCE_BOOL_COLS, dfGet_dfSet_same,
        dfGet_dfSet_other, dfGetD_dfSet_other]
  · simp [count_all_5_contexts_df, PRESENCE_BOOL_COLS, dfGet_dfSet_same,
      dfGet_dfSet_other, dfGetD_dfSet_other]
  · simp [count_all_5_contexts_df, PRESENCE_BOOL_COLS, dfGet_dfSet_same,
      dfGet_dfSet_other, dfGetD_dfSet_other]
  · simp only [PRESENCE_BOOL_COLS, List.mem_cons, List.not_mem_nil, or_false,
      not_or] at hk
    obtain ⟨k1, k2, k3, k4, k5⟩ := hk
    simp [count_all_5_contexts_df, PRESENCE_BOOL_COLS,
      dfGet_dfSet_other _ _ h1, dfGet_dfSet_other _ _ h2,
      dfGet_dfSet_other _ _ k1, dfGet_dfSet_other _ _ k2,
      dfGet_dfSet_other _ _ k3, dfGet_dfSet_other _ _ k4,
      dfGet_dfSet_other _ _ k5]
  · simp [count_all_5_contexts_df, PRESENCE_BOOL_COLS, dfSet]
  · rw [count_multi_instance_devices]
    split <;> rfl

theorem aggregator_frame_effects_wit :
    dfGet (count_total_devices ⟨1, [("Name", Col.raw [PyVal.vStr "pc1"])]⟩).2
        "Name" =
      dfGet (⟨1, [("Name", Col.raw [PyVal.vStr "pc1"])]⟩ : DF) "Name" ∧
    dfGet (count_all_5_contexts_df
        ⟨1, [("Name", Col.raw [PyVal.vStr "pc1"])]⟩).2 "Name" =
      dfGet (⟨1, [("Name", Col.raw [PyVal.vStr "pc1"])]⟩ : DF) "Name" ∧
    (count_multi_instance_devices
      ⟨1, [("Name", Col.raw [PyVal.vStr "pc1"])]⟩).2 =
      ⟨1, [("Name", Col.raw [PyVal.vStr "pc1"])]⟩ :=
  ⟨(aggregator_frame_effects ⟨1, [("Name", Col.raw [PyVal.vStr "pc1"])]⟩).1.2.2.1
      "Name" (by decide) (by decide),
    (aggregator_frame_effects ⟨1, [("Name", Col.raw [PyVal.vStr "pc1"])]⟩).2.1.2.2.2.1
      "Name" (by decide) (by decide) (by decide),
    (aggregator_frame_effects ⟨1, [("Name", Col.raw [PyVal.vStr "pc1"])]⟩).2.2⟩

end DeviceScope
